import Mathlib

/-!
Verification of the comment-radar stance-analysis core.

The definitions below are a shallow embedding of the TypeScript source:
`src/lib/engine/evaluation.ts` (evaluation and stance-logic modules),
`src/lib/engine/gemini-engine.ts`, and the GroqEngine batch code.
Numeric sentiment scores are embedded as rationals (`ℚ`); the
engagement-weighting formula, which uses a real logarithm, is embedded
separately over `ℝ`.  JavaScript `x || default` on possibly-absent
strings/numbers is embedded with explicit falsiness helpers.
-/

namespace CommentRadar

/-- Stance labels, `type StanceLabel` in `src/types/index.ts`. -/
inductive StanceLabel where
  | Support
  | Oppose
  | Neutral
  | Unknown
deriving DecidableEq, Repr

/-- Reply relations, `type ReplyRelation` in `src/types/index.ts`. -/
inductive ReplyRelation where
  | agree
  | disagree
  | clarify
  | question
  | unrelated
deriving DecidableEq, Repr

/-- String rendering of a stance label, as interpolated by JS template strings. -/
def showLabel : StanceLabel → String
  | .Support => "Support"
  | .Oppose => "Oppose"
  | .Neutral => "Neutral"
  | .Unknown => "Unknown"

/-- JS interpolation of a possibly-undefined label (`undefined` prints as "undefined"). -/
def showOptLabel : Option StanceLabel → String
  | none => "undefined"
  | some l => showLabel l

/-- String rendering of a reply relation, as interpolated by JS template strings. -/
def showRelation : ReplyRelation → String
  | .agree => "agree"
  | .disagree => "disagree"
  | .clarify => "clarify"
  | .question => "question"
  | .unrelated => "unrelated"

/-- JS `opt || default` for an optional string: `undefined` and `""` are falsy. -/
def jsOrStr (o : Option String) (d : String) : String :=
  match o with
  | none => d
  | some s => if s.isEmpty then d else s

/-- JS `opt || default` for an optional number: `undefined` and `0` are falsy. -/
def jsOrNum (o : Option ℚ) (d : ℚ) : ℚ :=
  match o with
  | none => d
  | some v => if v = 0 then d else v

/-- Embedding of `SentimentAnalysis` record from `src/types/index.ts` (fields the core reads). -/
structure SentimentAnalysis where
  commentId : String
  score : ℚ
  weightedScore : ℚ
  emotions : List String
  isSarcasm : Bool
  reason : Option String
  label : Option StanceLabel
  confidence : Option ℚ
  axisEvidence : Option String
  replyRelation : Option ReplyRelation
  speechAct : Option String
deriving DecidableEq, Repr

/-- Embedding of `YouTubeComment` record from `src/types/index.ts` (fields the core reads). -/
structure YouTubeComment where
  id : String
  author : String
  text : String
  likeCount : Nat
  parentId : Option String
  parentText : Option String
deriving DecidableEq, Repr

/-- The `{id, parentId}` projection passed to the stance-logic helpers. -/
structure CommentRef where
  id : String
  parentId : Option String
deriving DecidableEq, Repr

/-- Embedding of `synthesizeStance` from the stance-logic module, translated clause by clause. -/
def synthesizeStance (parentLabel : StanceLabel) (replyRelation : ReplyRelation) :
    StanceLabel :=
  if replyRelation = .unrelated ∨ replyRelation = .clarify ∨ replyRelation = .question then
    .Neutral
  else if replyRelation = .disagree then
    if parentLabel = .Support then .Oppose
    else if parentLabel = .Oppose then .Support
    else if parentLabel = .Neutral then .Neutral
    else .Unknown
  else if replyRelation = .agree then
    parentLabel
  else
    .Unknown

/-- Embedding of `labelToScore` from the stance-logic module. -/
def labelToScore : StanceLabel → ℚ
  | .Support => 0.85
  | .Oppose => -0.85
  | .Neutral => 0
  | .Unknown => 0

/-- Embedding of `scoreToLabel` from the stance-logic module. -/
def scoreToLabel (score : ℚ) : StanceLabel :=
  if score ≥ 0.7 then .Support
  else if score ≤ -0.7 then .Oppose
  else if |score| < 0.3 then .Neutral
  else .Unknown

/-- JS `Map` built by successive `set` calls: the last entry with a key wins.
`mapGet l p` is `map.get` for the map built from `l` keyed by predicate `p`. -/
def mapGet (l : List α) (p : α → Bool) : Option α :=
  (l.filter p).getLast?

/-- The per-element body of `applyStanceSynthesis` (the function mapped over
`analyses`), translated from the stance-logic module. -/
def stanceSynthStep (analyses : List SentimentAnalysis) (comments : List CommentRef)
    (analysis : SentimentAnalysis) : SentimentAnalysis :=
  match mapGet comments (fun c => c.id == analysis.commentId) with
  | none => analysis
  | some comment =>
    match comment.parentId with
    | none => analysis
    | some pid =>
      match mapGet analyses (fun a => a.commentId == pid) with
      | none => analysis
      | some parentAnalysis =>
        match parentAnalysis.label with
        | none => analysis
        | some parentLabel =>
          match analysis.replyRelation with
          | none => analysis
          | some rel =>
            let originalLabel := analysis.label
            let synthesizedLabel := synthesizeStance parentLabel rel
            { analysis with
              label := some synthesizedLabel
              score := labelToScore synthesizedLabel
              axisEvidence := some
                (match analysis.axisEvidence with
                  | some ev =>
                    if ev.isEmpty then
                      "Synthesized from parent (" ++ showLabel parentLabel ++ ") + " ++
                        showRelation rel
                    else
                      "[Thread Context: Parent was " ++ showLabel parentLabel ++
                        ", Reply " ++ showRelation rel ++ "] " ++ ev
                  | none =>
                    "Synthesized from parent (" ++ showLabel parentLabel ++ ") + " ++
                      showRelation rel)
              reason := some
                ("Original: " ++ showOptLabel originalLabel ++ " -> Synthesized: " ++
                  showLabel synthesizedLabel ++ " (Parent: " ++ showLabel parentLabel ++
                  ", Relation: " ++ showRelation rel ++ ")") }

/-- Embedding of `applyStanceSynthesis` from the stance-logic module: maps the synthesis
step over the analyses, looking parents up in the (pre-pass) input maps. -/
def applyStanceSynthesis (analyses : List SentimentAnalysis)
    (comments : List CommentRef) : List SentimentAnalysis :=
  analyses.map (stanceSynthStep analyses comments)

/-- Embedding of `sortCommentsByThreadOrder` from the stance-logic module: stable partition,
top-level comments first, then replies. -/
def sortCommentsByThreadOrder (comments : List CommentRef) : List CommentRef :=
  comments.filter (fun c => c.parentId.isNone) ++
    comments.filter (fun c => c.parentId.isSome)

/-! ### Evaluation module (`evaluateStanceAccuracy` and helpers) -/

/-- Embedding of `GroundTruthItem` from the evaluation module. -/
structure GroundTruthItem where
  commentId : String
  text : String
  expectedLabel : StanceLabel
  notes : Option String
deriving DecidableEq, Repr

/-- Critical-error severity tiers. -/
inductive Severity where
  | high
  | medium
  | low
deriving DecidableEq, Repr

/-- Embedding of `CriticalError` record from the evaluation module. -/
structure CriticalError where
  commentId : String
  text : String
  expected : StanceLabel
  predicted : StanceLabel
  severity : Severity
  reason : String
deriving DecidableEq, Repr

/-- Embedding of `getCriticalErrorSeverity` from the evaluation module, translated clause by
clause (returns `none` where the source returns `null`). -/
def getCriticalErrorSeverity (expected predicted : StanceLabel) : Option Severity :=
  if (expected = .Support ∧ predicted = .Oppose) ∨
      (expected = .Oppose ∧ predicted = .Support) then
    some .high
  else if ((expected = .Support ∨ expected = .Oppose) ∧ predicted = .Neutral) ∨
      (expected = .Neutral ∧ (predicted = .Support ∨ predicted = .Oppose)) then
    some .medium
  else if expected = .Unknown ∨ predicted = .Unknown then
    some .low
  else
    none

/-- One entry of `perLabelMetrics` in `EvaluationResult`. -/
structure PerLabelMetric where
  label : StanceLabel
  precision : ℚ
  «recall» : ℚ
  f1Score : ℚ
deriving Repr

/-- Embedding of `EvaluationResult` from the evaluation module.  The 4×4 confusion matrix is
embedded as a function on label pairs. -/
structure EvaluationResult where
  accuracy : ℚ
  totalSamples : Nat
  correctPredictions : Nat
  confusionMatrix : StanceLabel → StanceLabel → Nat
  criticalErrors : List CriticalError
  perLabelMetrics : List PerLabelMetric

/-- Embedding of `gtMap.get(id)` for the map built from the ground-truth list. -/
def lookupGroundTruth (groundTruth : List GroundTruthItem) (id : String) :
    Option GroundTruthItem :=
  mapGet groundTruth (fun gt => gt.commentId == id)

/-- Mutable state threaded through the `predictions.forEach` loop of
`evaluateStanceAccuracy`. -/
structure EvalAcc where
  matrix : StanceLabel → StanceLabel → Nat
  criticalErrors : List CriticalError
  correct : Nat

/-- Embedding of `confusionMatrix[expected][predicted]++`. -/
def bumpMatrix (m : StanceLabel → StanceLabel → Nat) (e p : StanceLabel) :
    StanceLabel → StanceLabel → Nat :=
  fun x y => if x = e ∧ y = p then m x y + 1 else m x y

/-- The body of the `predictions.forEach` loop in `evaluateStanceAccuracy`. -/
def evalStep (groundTruth : List GroundTruthItem) (acc : EvalAcc)
    (pred : SentimentAnalysis) : EvalAcc :=
  match lookupGroundTruth groundTruth pred.commentId with
  | none => acc
  | some gt =>
    match pred.label with
    | none => acc
    | some predicted =>
      let expected := gt.expectedLabel
      let matrix := bumpMatrix acc.matrix expected predicted
      if expected = predicted then
        { matrix := matrix, criticalErrors := acc.criticalErrors,
          correct := acc.correct + 1 }
      else
        match getCriticalErrorSeverity expected predicted with
        | none =>
          { matrix := matrix, criticalErrors := acc.criticalErrors,
            correct := acc.correct }
        | some severity =>
          { matrix := matrix,
            criticalErrors := acc.criticalErrors ++
              [{ commentId := pred.commentId, text := gt.text, expected := expected,
                 predicted := predicted, severity := severity,
                 reason := jsOrStr pred.reason "No reason provided" }],
            correct := acc.correct }

/-- The label enumeration used by the per-label metric loop. -/
def stanceLabels : List StanceLabel := [.Support, .Oppose, .Neutral, .Unknown]

/-- One iteration of the per-label metric loop in `evaluateStanceAccuracy`. -/
def perLabelMetric (matrix : StanceLabel → StanceLabel → Nat) (label : StanceLabel) :
    PerLabelMetric :=
  let tp := matrix label label
  let fp := stanceLabels.foldl (fun sum l => sum + if l ≠ label then matrix l label else 0) 0
  let fn := stanceLabels.foldl (fun sum l => sum + if l ≠ label then matrix label l else 0) 0
  let precision : ℚ := if tp + fp > 0 then (tp : ℚ) / ((tp : ℚ) + (fp : ℚ)) else 0
  let «recall» : ℚ := if tp + fn > 0 then (tp : ℚ) / ((tp : ℚ) + (fn : ℚ)) else 0
  let f1 : ℚ := if precision + «recall» > 0 then
      2 * precision * «recall» / (precision + «recall») else 0
  { label := label, precision := precision, «recall» := «recall», f1Score := f1 }

/-- Embedding of `evaluateStanceAccuracy` from the evaluation module. -/
def evaluateStanceAccuracy (predictions : List SentimentAnalysis)
    (groundTruth : List GroundTruthItem) : EvaluationResult :=
  let acc := predictions.foldl (evalStep groundTruth)
    { matrix := fun _ _ => 0, criticalErrors := [], correct := 0 }
  let totalSamples := (predictions.filter (fun p =>
    p.label.isSome && (lookupGroundTruth groundTruth p.commentId).isSome)).length
  let accuracy : ℚ := if totalSamples > 0 then (acc.correct : ℚ) / (totalSamples : ℚ) else 0
  { accuracy := accuracy, totalSamples := totalSamples,
    correctPredictions := acc.correct, confusionMatrix := acc.matrix,
    criticalErrors := acc.criticalErrors,
    perLabelMetrics := stanceLabels.map (perLabelMetric acc.matrix) }

/-- Spec-side predicate: a judgment is scored iff it has a label and a matching
ground-truth commentId. -/
def isScored (groundTruth : List GroundTruthItem) (p : SentimentAnalysis) : Bool :=
  p.label.isSome && (lookupGroundTruth groundTruth p.commentId).isSome

/-- Spec-side predicate: a scored judgment whose predicted label matches the
expected one. -/
def isScoredCorrect (groundTruth : List GroundTruthItem) (p : SentimentAnalysis) : Bool :=
  match lookupGroundTruth groundTruth p.commentId, p.label with
  | some gt, some l => gt.expectedLabel == l
  | _, _ => false

/-- Spec-side description of the critical error (if any) that a single
prediction contributes: only scored mismatches with a non-null severity. -/
def criticalErrorOf (groundTruth : List GroundTruthItem) (p : SentimentAnalysis) :
    Option CriticalError :=
  match lookupGroundTruth groundTruth p.commentId with
  | none => none
  | some gt =>
    match p.label with
    | none => none
    | some predicted =>
      if gt.expectedLabel = predicted then none
      else
        (getCriticalErrorSeverity gt.expectedLabel predicted).map (fun severity =>
          { commentId := p.commentId, text := gt.text, expected := gt.expectedLabel,
            predicted := predicted, severity := severity,
            reason := jsOrStr p.reason "No reason provided" })

/-! ### Analysis engines (GroqEngine / GeminiEngine batch paths)

The backend call plus JSON repair is opaque to these claims, so a batch call
is embedded as a function of the decoded backend outcome: either a list of
response records (plus a token count) or an API error.  The engine method
`calculateWeightedScore`, which takes a real logarithm, is passed in as a
function parameter `wscore`; its real-valued definition is studied
separately below. -/

/-- Embedding of `clampScore` from both engines: `Math.max(-1, Math.min(1, score))`. -/
def clampScore (score : ℚ) : ℚ := max (-1) (min 1 score)

/-- Embedding of `GroqResponse` record (one decoded batch item); fields the model may omit
are optional, matching the `item.x || default` guards at the use sites. -/
structure GroqResponse where
  commentId : String
  score : ℚ
  emotions : Option (List String)
  isSarcasm : Option Bool
  reason : Option String
deriving Repr

/-- Embedding of `AxisGroqResponse` record (one decoded axis batch item). -/
structure AxisGroqResponse where
  commentId : String
  score : Option ℚ
  emotions : Option (List String)
  isSarcasm : Option Bool
  reason : Option String
  label : Option StanceLabel
  confidence : Option ℚ
  axisEvidence : Option String
  replyRelation : Option ReplyRelation
  speechAct : Option String
deriving Repr

/-- Embedding of `GeminiResponse` record; the Gemini mapping reads its fields without
defaults. -/
structure GeminiResponse where
  commentId : String
  score : ℚ
  emotions : List String
  isSarcasm : Bool
  reason : String
deriving Repr

/-- The neutral fallback judgment built for a comment absent from the backend
reply (GroqEngine): score 0, weighted score 0, single "neutral" emotion, no
sarcasm, with the site-specific reason text. -/
def neutralFallback (id reasonText : String) : SentimentAnalysis :=
  { commentId := id, score := 0, weightedScore := 0, emotions := ["neutral"],
    isSarcasm := false, reason := some reasonText, label := none,
    confidence := none, axisEvidence := none, replyRelation := none,
    speechAct := none }

/-- Mapping of one found batch item to a `SentimentAnalysis`
(GroqEngine.analyzeBatch). -/
def groqItemAnalysis (wscore : ℚ → Nat → ℚ) (defaultReason : String)
    (likeCount : Nat) (item : GroqResponse) : SentimentAnalysis :=
  { commentId := item.commentId, score := clampScore item.score,
    weightedScore := wscore item.score likeCount,
    emotions := item.emotions.getD ["neutral"],
    isSarcasm := item.isSarcasm.getD false,
    reason := some (jsOrStr item.reason defaultReason),
    label := none, confidence := none, axisEvidence := none,
    replyRelation := none, speechAct := none }

/-- Embedding of `request.comments.map(...)` in `GroqEngine.analyzeBatch`: one output per
input comment, matched by commentId, neutral fallback when absent. -/
def groqMapAnalyses (wscore : ℚ → Nat → ℚ) (fallbackReason defaultReason : String)
    (comments : List YouTubeComment) (parsed : List GroqResponse) :
    List SentimentAnalysis :=
  comments.map fun comment =>
    match parsed.find? (fun p => p.commentId == comment.id) with
    | none => neutralFallback comment.id fallbackReason
    | some item => groqItemAnalysis wscore defaultReason comment.likeCount item

/-- Embedding of `parsedArray.map(...)` in `GeminiEngine.analyzeBatch`: one output per
backend reply item, like-count looked up from the input comments. -/
def geminiMapAnalyses (wscore : ℚ → Nat → ℚ) (comments : List YouTubeComment)
    (parsed : List GeminiResponse) : List SentimentAnalysis :=
  parsed.map fun item =>
    let likeCount := match comments.find? (fun c => c.id == item.commentId) with
      | some c => c.likeCount
      | none => 0
    { commentId := item.commentId, score := clampScore item.score,
      weightedScore := wscore item.score likeCount,
      emotions := item.emotions, isSarcasm := item.isSarcasm,
      reason := some item.reason, label := none, confidence := none,
      axisEvidence := none, replyRelation := none, speechAct := none }

/-- The error object inspected by the Groq catch blocks: HTTP status, error
code, message, and the (already re-decoded) `failed_generation` payload, `none`
when absent or unparseable. -/
structure ApiError (α : Type) where
  status : Option Nat
  code : Option String
  message : String
  failedGeneration : Option (List α)

/-- Character-list prefix test (helper for the JS `String.includes` checks). -/
def charsStartWith : List Char → List Char → Bool
  | _, [] => true
  | [], _ :: _ => false
  | c :: cs, d :: ds => c == d && charsStartWith cs ds

/-- Character-list containment test (helper for `String.includes`). -/
def charsContain (l pat : List Char) : Bool :=
  match l with
  | [] => pat.isEmpty
  | _ :: t => charsStartWith l pat || charsContain t pat

/-- JS `s.includes(pat)`. -/
def strIncludes (s pat : String) : Bool := charsContain s.data pat.data

/-- The `isQuotaError` test in the Groq catch blocks. -/
def isQuotaError (e : ApiError α) : Bool :=
  e.status == some 429 || e.status == some 413 ||
  strIncludes e.message "429" || strIncludes e.message "413" ||
  strIncludes e.message "quota" || strIncludes e.message "rate_limit_exceeded"

/-- The outcome of the backend call as seen by the engine after decoding. -/
inductive BackendResult (α : Type) where
  | ok (parsed : List α) (tokens : Nat)
  | err (e : ApiError α)

/-- Embedding of `BatchAnalysisResponse` from `src/types/index.ts`. -/
structure BatchAnalysisResponse where
  analyses : List SentimentAnalysis
  processingTimeMs : Nat
  tokensUsed : Nat
  isPartial : Option Bool

/-- Embedding of `AnalysisError` from `src/types/index.ts` (message plus stable code). -/
structure AnalysisError where
  message : String
  code : String

/-- The tail of the Groq batch catch block: quota errors degrade to a full
fallback result flagged `isPartial`, anything else is thrown. -/
def groqErrorResult (elapsed : Nat) (comments : List YouTubeComment)
    (e : ApiError GroqResponse) : Except AnalysisError BatchAnalysisResponse :=
  if isQuotaError e then
    .ok { analyses := comments.map (fun c =>
            neutralFallback c.id "Analysis skipped due to Groq API limits."),
          processingTimeMs := elapsed, tokensUsed := 0, isPartial := some true }
  else
    .error { message := "Failed to analyze batch with Groq: " ++ e.message,
             code := "GROQ_BATCH_ERROR" }

/-- Embedding of `GroqEngine.analyzeBatch`, as a function of the decoded backend outcome.
`elapsed` stands for the `Date.now()` difference taken on the non-empty
paths. -/
def groqAnalyzeBatch (wscore : ℚ → Nat → ℚ) (elapsed : Nat)
    (comments : List YouTubeComment) (backend : BackendResult GroqResponse) :
    Except AnalysisError BatchAnalysisResponse :=
  if comments.isEmpty then
    .ok { analyses := [], processingTimeMs := 0, tokensUsed := 0, isPartial := none }
  else
    match backend with
    | .ok parsed tokens =>
      .ok { analyses := groqMapAnalyses wscore
              "Groq skipped this comment in batch analysis" "No reason provided"
              comments parsed,
            processingTimeMs := elapsed, tokensUsed := tokens, isPartial := none }
    | .err e =>
      match e.failedGeneration with
      | some items =>
        if e.status = some 400 ∧ e.code = some "json_validate_failed" then
          .ok { analyses := groqMapAnalyses wscore "Skipped in recovery"
                  "Recovered from partial JSON" comments items,
                processingTimeMs := elapsed, tokensUsed := 0, isPartial := none }
        else groqErrorResult elapsed comments e
      | none => groqErrorResult elapsed comments e

/-- Embedding of `GeminiEngine.analyzeBatch`, as a function of the decoded backend outcome.
`tokens` stands for `estimateTokens(prompt, text)`. -/
def geminiAnalyzeBatch (wscore : ℚ → Nat → ℚ) (elapsed tokens : Nat)
    (comments : List YouTubeComment)
    (backend : Except String (List GeminiResponse)) :
    Except AnalysisError BatchAnalysisResponse :=
  if comments.isEmpty then
    .ok { analyses := [], processingTimeMs := 0, tokensUsed := 0, isPartial := none }
  else
    match backend with
    | .ok parsed =>
      .ok { analyses := geminiMapAnalyses wscore comments parsed,
            processingTimeMs := elapsed, tokensUsed := tokens, isPartial := none }
    | .error msg =>
      .error { message := "Failed to analyze batch: " ++ msg,
               code := "GEMINI_BATCH_ERROR" }

/-- The axis-path fallback judgment: neutral fields plus Unknown label,
confidence 0 and the site-specific evidence text. -/
def axisFallback (id reasonText evidence : String) : SentimentAnalysis :=
  { commentId := id, score := 0, weightedScore := 0, emotions := ["neutral"],
    isSarcasm := false, reason := some reasonText, label := some .Unknown,
    confidence := some 0, axisEvidence := some evidence, replyRelation := none,
    speechAct := none }

/-- Embedding of `this.labelToScore(item.label)` where the label may be absent (the switch
default returns 0). -/
def labelToScoreOpt : Option StanceLabel → ℚ
  | some l => labelToScore l
  | none => 0

/-- Mapping of one found axis batch item (GroqEngine.analyzeAxisBatch pass 1). -/
def axisItemAnalysis (wscore : ℚ → Nat → ℚ) (defaultReason : String)
    (likeCount : Nat) (item : AxisGroqResponse) : SentimentAnalysis :=
  let scoreFromLabel := labelToScoreOpt item.label
  let finalScore := match item.score with
    | some s => s
    | none => scoreFromLabel
  { commentId := item.commentId, score := clampScore finalScore,
    weightedScore := wscore finalScore likeCount,
    emotions := item.emotions.getD ["neutral"],
    isSarcasm := item.isSarcasm.getD false,
    reason := some (jsOrStr item.reason defaultReason),
    label := some (item.label.getD .Unknown),
    confidence := some (jsOrNum item.confidence 0.5),
    axisEvidence := some (item.axisEvidence.getD ""),
    replyRelation := item.replyRelation, speechAct := item.speechAct }

/-- Pass 1 of `analyzeAxisBatch`: one output per (sorted) input comment. -/
def axisMapAnalyses (wscore : ℚ → Nat → ℚ) (sortedComments : List YouTubeComment)
    (parsed : List AxisGroqResponse) : List SentimentAnalysis :=
  sortedComments.map fun comment =>
    match parsed.find? (fun p => p.commentId == comment.id) with
    | none => axisFallback comment.id
        "Groq skipped this comment in axis analysis" "No analysis available"
    | some item => axisItemAnalysis wscore "No reason provided"
        comment.likeCount item

/-- The recovery-path variant of the axis item mapping (its object literal
omits `replyRelation`/`speechAct`). -/
def axisItemAnalysisRecovery (wscore : ℚ → Nat → ℚ) (likeCount : Nat)
    (item : AxisGroqResponse) : SentimentAnalysis :=
  { axisItemAnalysis wscore "Recovered from partial JSON" likeCount item with
    replyRelation := none, speechAct := none }

/-- The recovery-path analog of `axisMapAnalyses`. -/
def axisMapAnalysesRecovery (wscore : ℚ → Nat → ℚ)
    (sortedComments : List YouTubeComment) (parsed : List AxisGroqResponse) :
    List SentimentAnalysis :=
  sortedComments.map fun comment =>
    match parsed.find? (fun p => p.commentId == comment.id) with
    | none => axisFallback comment.id "Skipped in recovery" "Skipped"
    | some item => axisItemAnalysisRecovery wscore comment.likeCount item

/-- The post-synthesis weighted-score recomputation in `analyzeAxisBatch`. -/
def recomputeWeighted (wscore : ℚ → Nat → ℚ) (sortedComments : List YouTubeComment)
    (analyses : List SentimentAnalysis) : List SentimentAnalysis :=
  analyses.map fun analysis =>
    match sortedComments.find? (fun c => c.id == analysis.commentId) with
    | none => analysis
    | some comment =>
      { analysis with weightedScore := wscore analysis.score comment.likeCount }

/-- The tail of the axis catch block: quota errors degrade to a full fallback
result (built from the original, unsorted comments) flagged `isPartial`. -/
def axisErrorResult (elapsed : Nat) (comments : List YouTubeComment)
    (e : ApiError AxisGroqResponse) : Except AnalysisError BatchAnalysisResponse :=
  if isQuotaError e then
    .ok { analyses := comments.map (fun c => axisFallback c.id
            "Analysis skipped due to Groq API limits." "API quota exceeded"),
          processingTimeMs := elapsed, tokensUsed := 0, isPartial := some true }
  else
    .error { message := "Failed to analyze axis batch with Groq: " ++ e.message,
             code := "GROQ_AXIS_BATCH_ERROR" }

/-- Embedding of `GroqEngine.analyzeAxisBatch`, as a function of the decoded backend
outcome: thread-order sort, pass-1 mapping, stance synthesis, weighted-score
recomputation, and the catch block. -/
def groqAnalyzeAxisBatch (wscore : ℚ → Nat → ℚ) (elapsed : Nat)
    (comments : List YouTubeComment) (backend : BackendResult AxisGroqResponse) :
    Except AnalysisError BatchAnalysisResponse :=
  if comments.isEmpty then
    .ok { analyses := [], processingTimeMs := 0, tokensUsed := 0, isPartial := none }
  else
    let commentOrder := comments.map (fun c => CommentRef.mk c.id c.parentId)
    let sortedOrder := sortCommentsByThreadOrder commentOrder
    let sortedComments := sortedOrder.filterMap
      (fun o => comments.find? (fun c => c.id == o.id))
    match backend with
    | .ok parsed tokens =>
      let pass1 := axisMapAnalyses wscore sortedComments parsed
      let pass2 := applyStanceSynthesis pass1
        (sortedComments.map (fun c => CommentRef.mk c.id c.parentId))
      let final := recomputeWeighted wscore sortedComments pass2
      .ok { analyses := final, processingTimeMs := elapsed, tokensUsed := tokens,
            isPartial := none }
    | .err e =>
      match e.failedGeneration with
      | some items =>
        if e.status = some 400 ∧ e.code = some "json_validate_failed" then
          let pass1 := axisMapAnalysesRecovery wscore sortedComments items
          let pass2 := applyStanceSynthesis pass1
            (sortedComments.map (fun c => CommentRef.mk c.id c.parentId))
          .ok { analyses := pass2, processingTimeMs := elapsed, tokensUsed := 0,
                isPartial := none }
        else axisErrorResult elapsed comments e
      | none => axisErrorResult elapsed comments e

/-! ### Engagement weighting over the reals -/

/-- Embedding of `clampScore` over the reals. -/
noncomputable def clampScoreR (score : ℝ) : ℝ := max (-1) (min 1 score)

/-- Embedding of `calculateWeightedScore` from `GeminiEngine` and `GroqEngine` (identical
code), with JS numbers idealized as reals:
`weight = 1 + log10(likeCount + 1)`, `weighted = score * weight`,
`normalized = weighted / 7`, clamped. -/
noncomputable def calculateWeightedScore (score likeCount : ℝ) : ℝ :=
  let weight := 1 + Real.logb 10 (likeCount + 1)
  let weighted := score * weight
  let normalized := weighted / 7
  clampScoreR normalized

/-- Modelled from the spec: the §4.1 weighted-score formula
`clamp(score * (1 + log10(likeCount + 1)) / 7, -1, 1)` with
`clamp(x) = max(-1, min(1, x))`. -/
noncomputable def weightedSpec (s L : ℝ) : ℝ :=
  max (-1) (min 1 (s * (1 + Real.logb 10 (L + 1)) / 7))

/-! ### Concrete inputs used by witnesses and the counterexample -/

/-- A concrete input comment. -/
def sampleComment : YouTubeComment :=
  { id := "c1", author := "alice", text := "nice video", likeCount := 3,
    parentId := none, parentText := none }

/-- A concrete quota-limit error (HTTP 429) for the plain batch path. -/
def sampleQuotaError : ApiError GroqResponse :=
  { status := some 429, code := none, message := "rate_limit_exceeded",
    failedGeneration := none }

/-- A concrete quota-limit error (HTTP 429) for the axis batch path. -/
def sampleAxisQuotaError : ApiError AxisGroqResponse :=
  { status := some 429, code := none, message := "rate_limit_exceeded",
    failedGeneration := none }

/-- A concrete top-level parent analysis (labelled Support). -/
def sampleParentAnalysis : SentimentAnalysis :=
  { commentId := "p", score := 0.8, weightedScore := 0.2, emotions := ["supportive"],
    isSarcasm := false, reason := some "parent reason", label := some .Support,
    confidence := some 0.9, axisEvidence := some "parent evidence",
    replyRelation := none, speechAct := none }

/-- A concrete reply analysis (disagreeing with its parent, no label). -/
def sampleReplyAnalysis : SentimentAnalysis :=
  { commentId := "r", score := 0.1, weightedScore := 0.05, emotions := ["critical"],
    isSarcasm := false, reason := some "reply reason", label := none,
    confidence := some 0.4, axisEvidence := none,
    replyRelation := some .disagree, speechAct := none }

/-- The comment references for the synthesis witness: parent then reply. -/
def sampleRefs : List CommentRef :=
  [{ id := "p", parentId := none }, { id := "r", parentId := some "p" }]

/-- A concrete ground-truth item. -/
def sampleGroundTruth : GroundTruthItem :=
  { commentId := "c1", text := "nice video", expectedLabel := .Support,
    notes := none }

/-- A concrete prediction judging the `sampleGroundTruth` comment as Oppose. -/
def sampleOpposePrediction : SentimentAnalysis :=
  { commentId := "c1", score := -0.8, weightedScore := -0.2, emotions := ["critical"],
    isSarcasm := false, reason := some "disagrees", label := some .Oppose,
    confidence := some 0.9, axisEvidence := none, replyRelation := none,
    speechAct := none }

end CommentRadar

namespace CommentRadar

/-- C2: `synthesizeStance`: unrelated/clarify/question give Neutral for every
parent; disagree flips Support and Oppose, keeps Neutral, and sends Unknown (the
only other label) to Unknown; agree returns the parent label unchanged. -/
theorem synthesizeStance_table :
    ∀ p : StanceLabel,
      (synthesizeStance p .unrelated = .Neutral ∧
       synthesizeStance p .clarify = .Neutral ∧
       synthesizeStance p .question = .Neutral) ∧
      (synthesizeStance .Support .disagree = .Oppose ∧
       synthesizeStance .Oppose .disagree = .Support ∧
       synthesizeStance .Neutral .disagree = .Neutral ∧
       synthesizeStance .Unknown .disagree = .Unknown) ∧
      synthesizeStance p .agree = p := by
  intro p
  cases p <;> decide

/-- C8: `labelToScore` sends Support to 0.85, Oppose to -0.85, Neutral and
Unknown to 0; `scoreToLabel` returns Support for scores ≥ 0.7, Oppose for
scores ≤ -0.7, Neutral when the absolute value is below 0.3, Unknown otherwise;
and `labelToScore ∘ scoreToLabel ∘ labelToScore` agrees with `labelToScore` on
all four labels. -/
theorem label_score_roundtrip :
    (labelToScore .Support = 0.85 ∧ labelToScore .Oppose = -0.85 ∧
     labelToScore .Neutral = 0 ∧ labelToScore .Unknown = 0) ∧
    (∀ s : ℚ,
      (0.7 ≤ s → scoreToLabel s = .Support) ∧
      (s ≤ -0.7 → scoreToLabel s = .Oppose) ∧
      (¬ 0.7 ≤ s → ¬ s ≤ -0.7 → |s| < 0.3 → scoreToLabel s = .Neutral) ∧
      (¬ 0.7 ≤ s → ¬ s ≤ -0.7 → ¬ |s| < 0.3 → scoreToLabel s = .Unknown)) ∧
    (∀ l : StanceLabel,
      labelToScore (scoreToLabel (labelToScore l)) = labelToScore l) := by
  refine ⟨by norm_num [labelToScore], ?_,
    by intro l; cases l <;> norm_num [labelToScore, scoreToLabel]⟩
  intro s
  refine ⟨fun h => ?_, fun h => ?_, fun h1 h2 h3 => ?_, fun h1 h2 h3 => ?_⟩ <;>
    simp only [scoreToLabel, ge_iff_le] <;>
    [rw [if_pos h];
     rw [if_neg (by intro hc; nlinarith), if_pos h];
     rw [if_neg h1, if_neg h2, if_pos h3];
     rw [if_neg h1, if_neg h2, if_neg h3]]

/-- Witness for `label_score_roundtrip` at concrete scores. -/
theorem label_score_roundtrip_witness :
    scoreToLabel 0.8 = .Support ∧ scoreToLabel (-0.8) = .Oppose ∧
    scoreToLabel 0 = .Neutral ∧ scoreToLabel 0.5 = .Unknown :=
  ⟨(label_score_roundtrip.2.1 0.8).1 (by norm_num),
   (label_score_roundtrip.2.1 (-0.8)).2.1 (by norm_num),
   (label_score_roundtrip.2.1 0).2.2.1 (by norm_num) (by norm_num) (by norm_num),
   (label_score_roundtrip.2.1 0.5).2.2.2 (by norm_num) (by norm_num)
     (by rw [abs_lt]; push_neg; intro _; norm_num)⟩

/-- Helper: the synthesis step never changes the commentId. -/
lemma stanceSynthStep_commentId (analyses : List SentimentAnalysis)
    (comments : List CommentRef) (a : SentimentAnalysis) :
    (stanceSynthStep analyses comments a).commentId = a.commentId := by
  unfold stanceSynthStep
  cases hm : mapGet comments (fun c => c.id == a.commentId) with
  | none => rfl
  | some comment =>
    cases hp : comment.parentId with
    | none => simp [hp]
    | some pid =>
      cases hpar : mapGet analyses (fun x => x.commentId == pid) with
      | none => simp [hp, hpar]
      | some pa =>
        cases hl : pa.label with
        | none => simp [hp, hpar, hl]
        | some plabel =>
          cases hr : a.replyRelation with
          | none => simp [hp, hpar, hl, hr]
          | some rel => simp [hp, hpar, hl, hr]

/-- Helper: mapping a commentId-preserving function over analyses preserves the
commentId list. -/
lemma map_commentId_eq (f : SentimentAnalysis → SentimentAnalysis)
    (hf : ∀ a, (f a).commentId = a.commentId) :
    ∀ l : List SentimentAnalysis,
      (l.map f).map (fun a => a.commentId) = l.map (fun a => a.commentId)
  | [] => rfl
  | a :: t => by simp only [List.map_cons, hf a, map_commentId_eq f hf t]

/-- C10: `applyStanceSynthesis` returns one judgment per input judgment, at the
same index and with the same commentId — nothing is added, dropped or
reordered, which makes the index-based merging by the caller sound. -/
theorem applyStanceSynthesis_preserves_ids (analyses : List SentimentAnalysis)
    (comments : List CommentRef) :
    (applyStanceSynthesis analyses comments).length = analyses.length ∧
    (applyStanceSynthesis analyses comments).map (fun a => a.commentId) =
      analyses.map (fun a => a.commentId) :=
  ⟨by simp [applyStanceSynthesis],
   map_commentId_eq _ (stanceSynthStep_commentId analyses comments) analyses⟩

/-- C3: for a judgment whose comment has a parentId, `applyStanceSynthesis`
returns it unchanged when the parent judgment is missing, the parent has no
label, or the reply has no replyRelation; otherwise it returns the judgment
with label replaced by `synthesizeStance` of the parent label and the
relation, score recomputed through `labelToScore`, provenance notes recording
the parent label and relation written into the evidence and reason fields,
and every other field unchanged. -/
theorem applyStanceSynthesis_pointwise
    (analyses : List SentimentAnalysis) (comments : List CommentRef)
    (i : Nat) (a : SentimentAnalysis) (ha : analyses[i]? = some a)
    (comment : CommentRef)
    (hc : mapGet comments (fun c => c.id == a.commentId) = some comment)
    (pid : String) (hp : comment.parentId = some pid) :
    (mapGet analyses (fun x => x.commentId == pid) = none →
      (applyStanceSynthesis analyses comments)[i]? = some a) ∧
    (∀ pa, mapGet analyses (fun x => x.commentId == pid) = some pa →
      pa.label = none → (applyStanceSynthesis analyses comments)[i]? = some a) ∧
    (a.replyRelation = none →
      (applyStanceSynthesis analyses comments)[i]? = some a) ∧
    (∀ pa plabel rel, mapGet analyses (fun x => x.commentId == pid) = some pa →
      pa.label = some plabel → a.replyRelation = some rel →
      (applyStanceSynthesis analyses comments)[i]? = some
        { a with
          label := some (synthesizeStance plabel rel)
          score := labelToScore (synthesizeStance plabel rel)
          axisEvidence := some (match a.axisEvidence with
            | some ev =>
              if ev.isEmpty then
                "Synthesized from parent (" ++ showLabel plabel ++ ") + " ++
                  showRelation rel
              else
                "[Thread Context: Parent was " ++ showLabel plabel ++ ", Reply " ++
                  showRelation rel ++ "] " ++ ev
            | none =>
              "Synthesized from parent (" ++ showLabel plabel ++ ") + " ++
                showRelation rel)
          reason := some ("Original: " ++ showOptLabel a.label ++
            " -> Synthesized: " ++ showLabel (synthesizeStance plabel rel) ++
            " (Parent: " ++ showLabel plabel ++ ", Relation: " ++
            showRelation rel ++ ")") }) := by
  have hout : (applyStanceSynthesis analyses comments)[i]? =
      some (stanceSynthStep analyses comments a) := by
    simp [applyStanceSynthesis, List.getElem?_map, ha]
  refine ⟨?_, ?_, ?_, ?_⟩
  · intro hpar
    rw [hout]
    unfold stanceSynthStep
    simp [hc, hp, hpar]
  · intro pa hpar hlab
    rw [hout]
    unfold stanceSynthStep
    simp [hc, hp, hpar, hlab]
  · intro hrel
    rw [hout]
    unfold stanceSynthStep
    simp only [hc, hp]
    cases hpar : mapGet analyses (fun x => x.commentId == pid) with
    | none => rfl
    | some pa =>
      cases hlab : pa.label with
      | none => simp [hlab]
      | some plabel => simp [hlab, hrel]
  · intro pa plabel rel hpar hlab hrel
    rw [hout]
    unfold stanceSynthStep
    simp [hc, hp, hpar, hlab, hrel]

/-- Witness for `applyStanceSynthesis_pointwise`: a Support parent with a
disagreeing reply yields an Oppose reply judgment with the provenance note. -/
theorem applyStanceSynthesis_pointwise_witness :
    (applyStanceSynthesis [sampleParentAnalysis, sampleReplyAnalysis] sampleRefs)[1]? =
      some { sampleReplyAnalysis with
        label := some .Oppose
        score := labelToScore .Oppose
        axisEvidence := some "Synthesized from parent (Support) + disagree"
        reason := some
          "Original: undefined -> Synthesized: Oppose (Parent: Support, Relation: disagree)" } := by
  have h := (applyStanceSynthesis_pointwise
    [sampleParentAnalysis, sampleReplyAnalysis] sampleRefs 1 sampleReplyAnalysis
    rfl { id := "r", parentId := some "p" } rfl "p" rfl).2.2.2
    sampleParentAnalysis .Support .disagree rfl rfl rfl
  exact h

/-- Helper: one evaluation step adds 1 to the correct count exactly on a
scored, correct prediction. -/
lemma evalStep_correct (gts : List GroundTruthItem) (acc : EvalAcc)
    (p : SentimentAnalysis) :
    (evalStep gts acc p).correct =
      acc.correct + (if isScoredCorrect gts p then 1 else 0) := by
  unfold evalStep isScoredCorrect
  cases hg : lookupGroundTruth gts p.commentId with
  | none => simp
  | some gt =>
    cases hl : p.label with
    | none => simp
    | some l =>
      by_cases he : gt.expectedLabel = l
      · simp [he]
      · simp only [beq_iff_eq, he, if_neg he, if_false]
        cases getCriticalErrorSeverity gt.expectedLabel l <;> simp [he]

/-- Helper: one evaluation step appends exactly the critical error (if any)
that the prediction contributes. -/
lemma evalStep_crit (gts : List GroundTruthItem) (acc : EvalAcc)
    (p : SentimentAnalysis) :
    (evalStep gts acc p).criticalErrors =
      acc.criticalErrors ++ (criticalErrorOf gts p).toList := by
  unfold evalStep criticalErrorOf
  cases hg : lookupGroundTruth gts p.commentId with
  | none => simp
  | some gt =>
    cases hl : p.label with
    | none => simp
    | some l =>
      by_cases he : gt.expectedLabel = l
      · simp [he]
      · simp only [if_neg he]
        cases getCriticalErrorSeverity gt.expectedLabel l <;> simp [he]

/-- Helper: the fold over predictions counts exactly the scored correct ones. -/
lemma evalFold_correct (gts : List GroundTruthItem) :
    ∀ (preds : List SentimentAnalysis) (acc : EvalAcc),
      (preds.foldl (evalStep gts) acc).correct =
        acc.correct + (preds.filter (isScoredCorrect gts)).length
  | [], acc => by simp
  | p :: t, acc => by
    rw [List.foldl_cons, evalFold_correct gts t, evalStep_correct]
    by_cases h : isScoredCorrect gts p
    · simp only [List.filter_cons, h, if_pos, List.length_cons]
      omega
    · simp [List.filter_cons, h]

/-- Helper: the fold over predictions collects exactly the per-prediction
critical errors, in order. -/
lemma evalFold_crit (gts : List GroundTruthItem) :
    ∀ (preds : List SentimentAnalysis) (acc : EvalAcc),
      (preds.foldl (evalStep gts) acc).criticalErrors =
        acc.criticalErrors ++ preds.filterMap (criticalErrorOf gts)
  | [], acc => by simp
  | p :: t, acc => by
    rw [List.foldl_cons, evalFold_crit gts t, evalStep_crit]
    cases h : criticalErrorOf gts p <;>
      simp [List.filterMap_cons, h, List.append_assoc]

/-- C6: `evaluateStanceAccuracy` scores exactly the judgments that have a
label and a matching ground-truth commentId: totalSamples is the number of
scored judgments, correctPredictions the number of scored matches, accuracy
is correct divided by total, and accuracy is 0 (not undefined) when nothing
is scored. -/
theorem evaluateStanceAccuracy_counts (preds : List SentimentAnalysis)
    (gts : List GroundTruthItem) :
    (evaluateStanceAccuracy preds gts).totalSamples =
      (preds.filter (isScored gts)).length ∧
    (evaluateStanceAccuracy preds gts).correctPredictions =
      (preds.filter (isScoredCorrect gts)).length ∧
    (evaluateStanceAccuracy preds gts).accuracy =
      (if (evaluateStanceAccuracy preds gts).totalSamples = 0 then 0 else
        ((evaluateStanceAccuracy preds gts).correctPredictions : ℚ) /
          ((evaluateStanceAccuracy preds gts).totalSamples : ℚ)) ∧
    ((evaluateStanceAccuracy preds gts).totalSamples = 0 →
      (evaluateStanceAccuracy preds gts).accuracy = 0) := by
  refine ⟨rfl, ?_, ?_, ?_⟩
  · simp [evaluateStanceAccuracy, evalFold_correct]
  · show (if 0 < _ then _ else _) = _
    rcases Nat.eq_zero_or_pos (evaluateStanceAccuracy preds gts).totalSamples with h | h
    · rw [if_pos h]
      show (if 0 < (preds.filter _).length then _ else (0 : ℚ)) = 0
      have h0 : (preds.filter (fun p =>
          p.label.isSome && (lookupGroundTruth gts p.commentId).isSome)).length = 0 := h
      rw [h0]
      simp
    · rw [if_neg (Nat.pos_iff_ne_zero.mp h)]
      have h0 : 0 < (preds.filter (fun p =>
          p.label.isSome && (lookupGroundTruth gts p.commentId).isSome)).length := h
      show (if 0 < (preds.filter _).length then _ else (0 : ℚ)) = _
      rw [if_pos h0]
      rfl
  · intro h
    have h0 : (preds.filter (fun p =>
        p.label.isSome && (lookupGroundTruth gts p.commentId).isSome)).length = 0 := h
    show (if 0 < (preds.filter _).length then _ else (0 : ℚ)) = 0
    rw [h0]
    simp

/-- Witness for `evaluateStanceAccuracy_counts`: with no matching ground
truth, nothing is scored and accuracy is 0 rather than undefined. -/
theorem evaluateStanceAccuracy_counts_witness :
    (evaluateStanceAccuracy [sampleOpposePrediction] []).accuracy = 0 :=
  (evaluateStanceAccuracy_counts [sampleOpposePrediction] []).2.2.2 rfl

/-- C7: critical errors are exactly the scored mismatches with a non-null
severity, and `getCriticalErrorSeverity` returns high exactly on opposite
poles (Support vs Oppose), medium exactly when one side is Support or Oppose
and the other Neutral, and low exactly when a side is Unknown and neither the
high nor the medium shape applies. -/
theorem criticalErrors_characterization (preds : List SentimentAnalysis)
    (gts : List GroundTruthItem) :
    (∀ e p : StanceLabel,
      (getCriticalErrorSeverity e p = some .high ↔
        (e = .Support ∧ p = .Oppose) ∨ (e = .Oppose ∧ p = .Support)) ∧
      (getCriticalErrorSeverity e p = some .medium ↔
        ((e = .Support ∨ e = .Oppose) ∧ p = .Neutral) ∨
          (e = .Neutral ∧ (p = .Support ∨ p = .Oppose))) ∧
      (getCriticalErrorSeverity e p = some .low ↔
        ((e = .Unknown ∨ p = .Unknown) ∧
          ¬((e = .Support ∧ p = .Oppose) ∨ (e = .Oppose ∧ p = .Support)) ∧
          ¬(((e = .Support ∨ e = .Oppose) ∧ p = .Neutral) ∨
            (e = .Neutral ∧ (p = .Support ∨ p = .Oppose)))))) ∧
    (evaluateStanceAccuracy preds gts).criticalErrors =
      preds.filterMap (criticalErrorOf gts) := by
  constructor
  · intro e p
    cases e <;> cases p <;> exact (by decide)
  · simp [evaluateStanceAccuracy, evalFold_crit]

/-- C4: the shared engine method `calculateWeightedScore` equals the spec formula
`clamp(score * (1 + log10(likeCount + 1)) / 7, -1, 1)`, and the weighted
score always lies in the interval from -1 to 1. -/
theorem calculateWeightedScore_spec (s L : ℝ) (_hL : 0 ≤ L) :
    calculateWeightedScore s L = weightedSpec s L ∧
    -1 ≤ calculateWeightedScore s L ∧ calculateWeightedScore s L ≤ 1 := by
  unfold calculateWeightedScore weightedSpec clampScoreR
  exact ⟨rfl, le_max_left _ _, max_le (by norm_num) (min_le_left _ _)⟩

/-- Witness for `calculateWeightedScore_spec` at score 0, like count 0. -/
theorem calculateWeightedScore_spec_witness :
    (0 : ℝ) ≤ 0 ∧ (calculateWeightedScore 0 0 = weightedSpec 0 0 ∧
      -1 ≤ calculateWeightedScore 0 0 ∧ calculateWeightedScore 0 0 ≤ 1) :=
  ⟨le_refl 0, calculateWeightedScore_spec 0 0 (le_refl 0)⟩

/-- C9: on an empty comment list, both engine `analyzeBatch` methods return an
empty judgment list with processing time 0 and tokensUsed 0, for every
possible backend outcome — the result does not depend on the backend, i.e.
no backend call is made. -/
theorem analyzeBatch_empty (wscore : ℚ → Nat → ℚ) (elapsed tokens : Nat)
    (gb : BackendResult GroqResponse)
    (ge : Except String (List GeminiResponse)) :
    groqAnalyzeBatch wscore elapsed [] gb =
      .ok { analyses := [], processingTimeMs := 0, tokensUsed := 0,
            isPartial := none } ∧
    geminiAnalyzeBatch wscore elapsed tokens [] ge =
      .ok { analyses := [], processingTimeMs := 0, tokensUsed := 0,
            isPartial := none } :=
  ⟨rfl, rfl⟩

/-- C5: when the backend call fails with an error the quota test detects (and
the json-validate recovery does not apply), `GroqEngine.analyzeBatch` and
`GroqEngine.analyzeAxisBatch` do not throw: each returns an order-aligned
result with one neutral fallback judgment per input comment and
`isPartial := true`. -/
theorem quota_fallback_isPartial (wscore : ℚ → Nat → ℚ) (elapsed : Nat)
    (comments : List YouTubeComment)
    (e : ApiError GroqResponse) (ea : ApiError AxisGroqResponse)
    (hne : comments ≠ [])
    (hq : isQuotaError e = true)
    (hrec : ¬(e.status = some 400 ∧ e.code = some "json_validate_failed" ∧
      e.failedGeneration.isSome = true))
    (hqa : isQuotaError ea = true)
    (hreca : ¬(ea.status = some 400 ∧ ea.code = some "json_validate_failed" ∧
      ea.failedGeneration.isSome = true)) :
    groqAnalyzeBatch wscore elapsed comments (.err e) =
      .ok { analyses := comments.map (fun c =>
              neutralFallback c.id "Analysis skipped due to Groq API limits."),
            processingTimeMs := elapsed, tokensUsed := 0,
            isPartial := some true } ∧
    groqAnalyzeAxisBatch wscore elapsed comments (.err ea) =
      .ok { analyses := comments.map (fun c => axisFallback c.id
              "Analysis skipped due to Groq API limits." "API quota exceeded"),
            processingTimeMs := elapsed, tokensUsed := 0,
            isPartial := some true } ∧
    (comments.map (fun c =>
        neutralFallback c.id "Analysis skipped due to Groq API limits.")).map
      (fun a => a.commentId) = comments.map (fun c => c.id) := by
  have hempty : comments.isEmpty = false := by
    cases comments with
    | nil => exact absurd rfl hne
    | cons c t => rfl
  refine ⟨?_, ?_, ?_⟩
  · unfold groqAnalyzeBatch
    rw [hempty]
    cases hf : e.failedGeneration with
    | none => simp [hf, groqErrorResult, hq]
    | some items =>
      have hcond : ¬(e.status = some 400 ∧ e.code = some "json_validate_failed") := by
        intro hcond
        exact hrec ⟨hcond.1, hcond.2, by simp [hf]⟩
      simp [hf, hcond, groqErrorResult, hq]
  · unfold groqAnalyzeAxisBatch
    rw [hempty]
    cases hf : ea.failedGeneration with
    | none => simp [hf, axisErrorResult, hqa]
    | some items =>
      have hcond : ¬(ea.status = some 400 ∧ ea.code = some "json_validate_failed") := by
        intro hcond
        exact hreca ⟨hcond.1, hcond.2, by simp [hf]⟩
      simp [hf, hcond, axisErrorResult, hqa]
  · simp [neutralFallback]

/-- Witness for `quota_fallback_isPartial`: a concrete HTTP 429 error on a
one-comment batch yields the flagged fallback result. -/
theorem quota_fallback_isPartial_witness :
    groqAnalyzeBatch (fun _ _ => 0) 5 [sampleComment] (.err sampleQuotaError) =
      .ok { analyses :=
              [neutralFallback "c1" "Analysis skipped due to Groq API limits."],
            processingTimeMs := 5, tokensUsed := 0, isPartial := some true } := by
  have h := quota_fallback_isPartial (fun _ _ => 0) 5 [sampleComment]
    sampleQuotaError sampleAxisQuotaError (by simp) rfl
    (by simp [sampleQuotaError]) rfl (by simp [sampleAxisQuotaError])
  exact h.1

/-- Helper: mapping a function whose outputs carry the id of the input over a
comment list preserves the id list. -/
lemma map_id_of_pointwise (f : YouTubeComment → SentimentAnalysis)
    (hf : ∀ c, (f c).commentId = c.id) :
    ∀ l : List YouTubeComment,
      (l.map f).map (fun a => a.commentId) = l.map (fun c => c.id)
  | [] => rfl
  | c :: t => by simp only [List.map_cons, hf c, map_id_of_pointwise f hf t]

/-- Helper: each element produced by the Groq batch mapping carries the id of
the input comment at its position. -/
lemma groqMapElem_commentId (wscore : ℚ → Nat → ℚ) (fr dr : String)
    (parsed : List GroqResponse) (c : YouTubeComment) :
    (match parsed.find? (fun (p : GroqResponse) => p.commentId == c.id) with
      | none => neutralFallback c.id fr
      | some item => groqItemAnalysis wscore dr c.likeCount item).commentId = c.id := by
  cases hf : parsed.find? (fun (p : GroqResponse) => p.commentId == c.id) with
  | none => rfl
  | some item =>
    have hb := List.find?_some hf
    simp only [beq_iff_eq] at hb
    simp [groqItemAnalysis, hb]

/-- C1 (amended): `GroqEngine.analyzeBatch` returns exactly one judgment per
input comment, in the original caller order, and a comment absent from the backend
reply gets the neutral fallback judgment (score 0, single "neutral" emotion,
sarcasm false, explanatory reason); `GeminiEngine.analyzeBatch`, by contrast,
returns one judgment per backend reply entry, so its output length follows
the reply, not the input. -/
theorem analyzeBatch_alignment (wscore : ℚ → Nat → ℚ) (fr dr : String)
    (comments : List YouTubeComment) (parsed : List GroqResponse)
    (gcomments : List YouTubeComment) (gparsed : List GeminiResponse) :
    ((groqMapAnalyses wscore fr dr comments parsed).map (fun a => a.commentId) =
      comments.map (fun c => c.id)) ∧
    (∀ (i : Nat) (c : YouTubeComment), comments[i]? = some c →
      parsed.find? (fun p => p.commentId == c.id) = none →
      (groqMapAnalyses wscore fr dr comments parsed)[i]? =
        some (neutralFallback c.id fr)) ∧
    (∀ id r, (neutralFallback id r).score = 0 ∧
      (neutralFallback id r).emotions = ["neutral"] ∧
      (neutralFallback id r).isSarcasm = false ∧
      (neutralFallback id r).reason = some r) ∧
    (geminiMapAnalyses wscore gcomments gparsed).length = gparsed.length := by
  refine ⟨?_, ?_, ?_, ?_⟩
  · exact map_id_of_pointwise _ (groqMapElem_commentId wscore fr dr parsed) comments
  · intro i c hi hf
    simp [groqMapAnalyses, List.getElem?_map, hi, hf]
  · intro id r
    exact ⟨rfl, rfl, rfl, rfl⟩
  · simp [geminiMapAnalyses]

/-- Witness for `analyzeBatch_alignment`: an empty backend reply yields the
fallback judgment at position 0. -/
theorem analyzeBatch_alignment_witness :
    (groqMapAnalyses (fun _ _ => 0) "skipped" "none" [sampleComment] [])[0]? =
      some (neutralFallback "c1" "skipped") := by
  have h := (analyzeBatch_alignment (fun _ _ => 0) "skipped" "none"
    [sampleComment] [] [] []).2.1 0 sampleComment rfl rfl
  exact h

/-- Counterexample to C1 as stated: `GeminiEngine.analyzeBatch` on one input
comment with a backend reply that omits it returns zero judgments, so the
output length does not equal the input length and the missing comment gets no
fallback — it is dropped. -/
theorem gemini_batch_drops_missing_comment :
    geminiAnalyzeBatch (fun _ _ => 0) 1 1 [sampleComment] (Except.ok []) =
      Except.ok { analyses := [], processingTimeMs := 1, tokensUsed := 1,
                  isPartial := none } ∧
    ([] : List SentimentAnalysis).length ≠ [sampleComment].length :=
  ⟨rfl, by decide⟩

end CommentRadar
